import Mathlib

/-!
Verification development for "The-Pets-Club", a single-page inventory /
order-management web client.  The definitions below are a shallow embedding,
translated directly from the TypeScript sources:

* `src/lib/utils.ts`                — `num`, `calcOrderTotals`
* `src/pages/DashboardPage.tsx`     — `del` (client deletion), `MovementMenu.submit`
* `src/pages/OrderEditor.tsx`       — line-item reconciliation, catalog / items loading
* `src/pages/ClientPage.tsx`        — `canDeleteOrders`
* `src/App.tsx`                     — `loadRoute` / `saveRoute`, `go`, products bounce effect

JavaScript numbers are modelled by `JsNum`: a finite value is carried as an
exact rational, and the non-finite values `NaN`, `Infinity`, `-Infinity` are
explicit constructors, so that coercions (`Number.isFinite`, comparisons whose
JS semantics make every comparison with `NaN` false) are modelled faithfully.
-/

/-- A JavaScript `number`: either a finite value (as an exact rational) or one
of the three non-finite values. -/
inductive JsNum where
  | fin (q : ℚ)
  | nan
  | inf
  | ninf
deriving DecidableEq, Repr

namespace JsNum

/-- `Number.isFinite`. -/
def isFinite : JsNum → Bool
  | fin _ => true
  | _ => false

/-- JS `a < b` (every comparison with `NaN` is false). -/
def jsLt : JsNum → JsNum → Bool
  | fin a, fin b => a < b
  | nan, _ => false
  | _, nan => false
  | ninf, ninf => false
  | ninf, _ => true
  | _, ninf => false
  | inf, _ => false
  | fin _, inf => true

/-- JS `a <= b` (every comparison with `NaN` is false). -/
def jsLe : JsNum → JsNum → Bool
  | fin a, fin b => a ≤ b
  | nan, _ => false
  | _, nan => false
  | ninf, _ => true
  | _, ninf => false
  | inf, inf => true
  | fin _, inf => true
  | inf, fin _ => false

/-- JS `a === b` (`NaN === NaN` is false). -/
def jsEq : JsNum → JsNum → Bool
  | fin a, fin b => a == b
  | inf, inf => true
  | ninf, ninf => true
  | _, _ => false

/-- The rational value of a finite JS number (`0` for the non-finite ones;
only ever used under an `isFinite` guard). -/
def toQ : JsNum → ℚ
  | fin q => q
  | _ => 0

end JsNum

/-! ## `src/lib/utils.ts` -/

/-- The argument type of `num`: `number | string | null | undefined`.
A string carries the JS number that `Number(s)` parses it to (possibly
`NaN` when the string is not numeric). -/
inductive NumInput where
  | null
  | undefined
  | jsnum (n : JsNum)
  | str (parsedValue : JsNum)
deriving DecidableEq, Repr

/-- `num` from `src/lib/utils.ts`:
`if (v === null || v === undefined) return 0;`
`const n = typeof v === "string" ? Number(v) : v;`
`return Number.isFinite(n) ? n : 0;` -/
def num : NumInput → ℚ
  | NumInput.null => 0
  | NumInput.undefined => 0
  | NumInput.jsnum n => if n.isFinite then n.toQ else 0
  | NumInput.str p => if p.isFinite then p.toQ else 0

/-- An order line item as consumed by `calcOrderTotals` (fields may be string
numerics or missing, hence `NumInput`). -/
structure TotalsItem where
  qty : NumInput
  wholesale_price : NumInput
  retail_price : NumInput
deriving DecidableEq, Repr

/-- An order as consumed by `calcOrderTotals`: `o.items` may be absent
(`o.items ?? []`), and `shop_fees` is read with `num`. -/
structure TotalsOrder where
  items : Option (List TotalsItem)
  shop_fees : NumInput
deriving DecidableEq, Repr

/-- Result record of `calcOrderTotals`. -/
structure OrderTotals where
  wholesale_total : ℚ
  retail_total : ℚ
  order_income : ℚ
  client_profit : ℚ
deriving DecidableEq, Repr

/-- `calcOrderTotals` from `src/lib/utils.ts`, with the two `reduce`s as left
folds and JS float arithmetic idealised as exact rational arithmetic. -/
def calcOrderTotals (o : TotalsOrder) : OrderTotals :=
  let items := o.items.getD []
  let wholesale_total := items.foldl (fun s it => s + num it.qty * num it.wholesale_price) 0
  let retail_total := items.foldl (fun s it => s + num it.qty * num it.retail_price) 0
  let shop_fees := num o.shop_fees
  let order_income := retail_total - shop_fees
  let client_profit := order_income - wholesale_total
  { wholesale_total := wholesale_total
    retail_total := retail_total
    order_income := order_income
    client_profit := client_profit }

/-! ## `src/pages/DashboardPage.tsx` — `MovementMenu.submit` -/

/-- The three movement dialog kinds (`open : null | "in" | "out" | "transfer"`). -/
inductive MovementKind where
  | inK
  | outK
  | transferK
deriving DecidableEq, Repr

/-- The `movement` string that `submit` writes for a plain (non-transfer)
submission of a given kind. -/
def MovementKind.toMovementString : MovementKind → String
  | MovementKind.inK => "in"
  | MovementKind.outK => "out"
  | MovementKind.transferK => "transfer"

/-- The fields of the source / destination inventory rows that `submit`
reads.  `qty_on_hand` is stored after the `Number(item.qty_on_hand ?? 0)`
coercion (a non-numeric string coerces to `NaN`). -/
structure ItemRef where
  id : String
  name : String
  qty_on_hand : JsNum
deriving DecidableEq, Repr

/-- One row inserted into `inventory_movements`.  `from_item_id` is only
present on the single-insert plain-transfer path. -/
structure MovementInsert where
  item_id : String
  movement : String
  qty : JsNum
  note : String
  from_item_id : Option String
deriving DecidableEq, Repr

/-- What a call of `submit` did: the `inventory_movements` rows it inserted
(in order), the alert it raised (if any), and whether it reached the success
path (`setOpen(null); onChange()`). -/
structure SubmitOutcome where
  inserts : List MovementInsert
  alert : Option String
  succeeded : Bool
deriving DecidableEq, Repr

/-- `MovementMenu.submit` from `src/pages/DashboardPage.tsx`.

`err n` is the backend's response to the `n`-th insert this call issues
(`none` = success, `some msg` = error with message `msg`); inserts are
issued sequentially, so later inserts depend on earlier results.  `qty` is
the consumed-quantity input, `prodQty` the produced-quantity input
(`none` models the empty string `""`), `toItem` the picked destination. -/
def submit (err : ℕ → Option String) (kind : MovementKind) (item : ItemRef)
    (qty : JsNum) (prodQty : Option JsNum) (note : String)
    (toItem : Option ItemRef) : SubmitOutcome :=
  if qty.jsLe (JsNum.fin 0) then
    { inserts := [], alert := none, succeeded := false }
  else
    match kind with
    | MovementKind.transferK =>
      match toItem with
      | none => { inserts := [], alert := some "Select destination item", succeeded := false }
      | some t =>
        let available := item.qty_on_hand
        if available.jsLt qty then
          { inserts := [], alert := some "Not enough stock to transfer.", succeeded := false }
        else
          let finalProdQty := prodQty.getD qty
          if !finalProdQty.isFinite || finalProdQty.jsLt (JsNum.fin 0) then
            { inserts := [], alert := some "Produced quantity must be a valid number.",
              succeeded := false }
          else if finalProdQty.jsEq qty then
            let rec0 : MovementInsert :=
              { item_id := t.id, movement := "transfer", qty := qty, note := note,
                from_item_id := some item.id }
            match err 0 with
            | some e => { inserts := [rec0], alert := some e, succeeded := false }
            | none => { inserts := [rec0], alert := none, succeeded := true }
          else
            let outRec : MovementInsert :=
              { item_id := item.id, movement := "out", qty := qty,
                note := if note = "" then "convert to " ++ t.name else note,
                from_item_id := none }
            match err 0 with
            | some e => { inserts := [outRec], alert := some e, succeeded := false }
            | none =>
              let inRec : MovementInsert :=
                { item_id := t.id, movement := "in", qty := finalProdQty,
                  note := if note = "" then "from " ++ item.name else note,
                  from_item_id := none }
              match err 1 with
              | some e =>
                let rbRec : MovementInsert :=
                  { item_id := item.id, movement := "in", qty := qty,
                    note := "rollback: failed destination insert", from_item_id := none }
                { inserts := [outRec, inRec, rbRec], alert := some e, succeeded := false }
              | none => { inserts := [outRec, inRec], alert := none, succeeded := true }
    | k =>
      let rec0 : MovementInsert :=
        { item_id := item.id, movement := k.toMovementString, qty := qty, note := note,
          from_item_id := none }
      match err 0 with
      | some e => { inserts := [rec0], alert := some e, succeeded := false }
      | none => { inserts := [rec0], alert := none, succeeded := true }

/-! ## `src/pages/DashboardPage.tsx` — `del` (client deletion) -/

/-- JS `haystack.includes(needle)`: substring containment. -/
def strIncludes (haystack needle : String) : Bool :=
  decide (needle.toList <:+: haystack.toList)

/-- What a call of `del` did: whether the `admin_delete_client` RPC was
issued, whether a direct `clients` table delete was issued (the commented-out
alternative — never taken), the alert raised, and whether the client list was
reloaded (`load()`). -/
structure DelOutcome where
  rpcCalled : Bool
  tableDeleteCalled : Bool
  alert : Option String
  reloaded : Bool
deriving DecidableEq, Repr

/-- `del` from `src/pages/DashboardPage.tsx`.  `isAdmin` is the locally
fetched admin flag, `confirmed` the result of the `confirm(...)` prompt, and
`rpcError` the error (if any) returned by the `admin_delete_client` RPC. -/
def del (isAdmin : Bool) (confirmed : Bool) (rpcError : Option String) : DelOutcome :=
  if !isAdmin then
    { rpcCalled := false, tableDeleteCalled := false,
      alert := some "Only admins can delete clients.", reloaded := false }
  else if !confirmed then
    { rpcCalled := false, tableDeleteCalled := false, alert := none, reloaded := false }
  else
    match rpcError with
    | some e =>
      { rpcCalled := true, tableDeleteCalled := false,
        alert := some (if strIncludes e "not_admin" then "You are not an admin."
                       else if strIncludes e "not_found" then "Client not found."
                       else e),
        reloaded := false }
    | none =>
      { rpcCalled := true, tableDeleteCalled := false, alert := none, reloaded := true }

/-! ## `src/pages/ClientPage.tsx` — `canDeleteOrders` -/

/-- A value returned in the `data` field of an RPC call, as far as JS
truthiness is concerned (`Boolean(x)`). -/
inductive RpcData where
  | nullData
  | boolData (b : Bool)
  | numData (n : JsNum)
  | strData (s : String)
deriving DecidableEq, Repr

/-- JS `Boolean(x)` on an RPC `data` value. -/
def rpcTruthy : RpcData → Bool
  | RpcData.nullData => false
  | RpcData.boolData b => b
  | RpcData.numData (JsNum.fin q) => q ≠ 0
  | RpcData.numData JsNum.nan => false
  | RpcData.numData _ => true
  | RpcData.strData s => s ≠ ""

/-- `setCanDeleteOrders(Boolean(adm.data) || Boolean(edt.data))` from
`src/pages/ClientPage.tsx`: `adm` is the `is_admin` RPC result and `edt`
the `is_editor` RPC result. -/
def canDeleteOrders (admData edtData : RpcData) : Bool :=
  rpcTruthy admData || rpcTruthy edtData

/-! ## `src/pages/OrderEditor.tsx` — line-item reconciliation -/

/-- A catalog product row (`id,name`). -/
structure Product where
  id : String
  name : String
deriving DecidableEq, Repr

/-- A catalog product-variant row (`id,product_id,name`; the price columns
are irrelevant to reconciliation). -/
structure ProductVariant where
  id : String
  product_id : String
  name : String
deriving DecidableEq, Repr

/-- A saved `order_items` row as fetched for the editor
(`product_name,variation,qty,wholesale_price,retail_price`). -/
structure SavedItem where
  product_name : String
  variation : String
  qty : ℚ
  wholesale_price : ℚ
  retail_price : ℚ
deriving DecidableEq, Repr

/-- A reconciled editor line item: the saved fields plus the best-effort
`product_id` / `variant_id` helper fields. -/
structure EditorItem where
  product_name : String
  variation : String
  qty : ℚ
  wholesale_price : ℚ
  retail_price : ℚ
  product_id : Option String
  variant_id : Option String
deriving DecidableEq, Repr

/-- One step of the `reconciled` map in `src/pages/OrderEditor.tsx`:
`const prod = (p || []).find((pp) => pp.name === it.product_name);`
`const vlist = prod ? (v || []).filter((vv) => vv.product_id === prod.id) : [];`
`const varMatch = vlist.find(vv => vv.name === it.variation);`
`return { ...it, product_id: prod?.id, variant_id: varMatch?.id };` -/
def reconcileItem (p : List Product) (v : List ProductVariant) (it : SavedItem) : EditorItem :=
  let prod := p.find? (fun pp => pp.name == it.product_name)
  let vlist : List ProductVariant := match prod with
    | some pr => v.filter (fun vv => vv.product_id == pr.id)
    | none => []
  let varMatch := vlist.find? (fun vv => vv.name == it.variation)
  { product_name := it.product_name
    variation := it.variation
    qty := it.qty
    wholesale_price := it.wholesale_price
    retail_price := it.retail_price
    product_id := prod.map Product.id
    variant_id := varMatch.map ProductVariant.id }

/-- The full `reconciled` list (`(its || []).map(...)`). -/
def reconciled (p : List Product) (v : List ProductVariant)
    (its : List SavedItem) : List EditorItem :=
  its.map (reconcileItem p v)

/-! ## `src/pages/OrderEditor.tsx` — catalog and order-items loading
(the two fallback paths). -/

/-- The result of one backend call: an error message, or data rows. -/
inductive CallResult (α : Type) where
  | err (msg : String)
  | ok (rows : List α)
deriving DecidableEq, Repr

/-- A catalog row returned by the `client_catalog_for_admin` /
`client_catalog_for_editor` RPCs (only identity fields matter here). -/
structure CatRow where
  product_id : String
  variant_id : String
  product_name : String
  variant_name : String
deriving DecidableEq, Repr

/-- What the catalog-loading step of the `OrderEditor` effect did: the RPC
names it called, in order, the alert it raised (if any), and the rows it
keeps (`catRows`). -/
structure CatalogLoadOutcome where
  calls : List String
  alert : Option String
  catRows : List CatRow
deriving DecidableEq, Repr

/-- Step 1 of the `OrderEditor` load effect (`src/pages/OrderEditor.tsx`):
admins call `client_catalog_for_admin`; editors call
`client_catalog_for_editor` and, when that RPC errors, fall back to
`client_catalog_for_admin`, alerting only if the fallback also errors. -/
def loadCatalog (isAdmin : Bool) (adminRes editorRes : CallResult CatRow) :
    CatalogLoadOutcome :=
  if isAdmin then
    match adminRes with
    | CallResult.err m =>
      { calls := ["client_catalog_for_admin"], alert := some m, catRows := [] }
    | CallResult.ok rows =>
      { calls := ["client_catalog_for_admin"], alert := none, catRows := rows }
  else
    match editorRes with
    | CallResult.err _ =>
      match adminRes with
      | CallResult.err m =>
        { calls := ["client_catalog_for_editor", "client_catalog_for_admin"],
          alert := some m, catRows := [] }
      | CallResult.ok rows =>
        { calls := ["client_catalog_for_editor", "client_catalog_for_admin"],
          alert := none, catRows := rows }
    | CallResult.ok rows =>
      { calls := ["client_catalog_for_editor"], alert := none, catRows := rows }

/-- A raw `order_items` row (identity details elided; only the calls and the
alert behaviour are at issue for the fallback). -/
structure ItemRow where
  id : String
deriving DecidableEq, Repr

/-- What the order-items loading step did. -/
structure ItemsLoadOutcome where
  calls : List String
  alert : Option String
  rows : List ItemRow
deriving DecidableEq, Repr

/-- Step 2 of the `OrderEditor` load effect for an existing order
(`src/pages/OrderEditor.tsx`): admins select from `order_items` directly;
editors call the `order_items_for_editor` RPC and, when it errors, fall
back to a direct `order_items` select, alerting only if the fallback also
errors. -/
def loadOrderItems (isAdmin : Bool) (selectRes rpcRes : CallResult ItemRow) :
    ItemsLoadOutcome :=
  if isAdmin then
    match selectRes with
    | CallResult.err m =>
      { calls := ["select order_items"], alert := some m, rows := [] }
    | CallResult.ok rows =>
      { calls := ["select order_items"], alert := none, rows := rows }
  else
    match rpcRes with
    | CallResult.err _ =>
      match selectRes with
      | CallResult.err m =>
        { calls := ["order_items_for_editor", "select order_items"],
          alert := some m, rows := [] }
      | CallResult.ok rows =>
        { calls := ["order_items_for_editor", "select order_items"],
          alert := none, rows := rows }
    | CallResult.ok rows =>
      { calls := ["order_items_for_editor"], alert := none, rows := rows }

/-! ## `src/App.tsx` — route state, persistence, navigation guard -/

/-- The `AppRoute` union type from `src/App.tsx`.  A `clientId` is the raw
string from the route params (the guard tests its JS truthiness, so the
empty string counts as absent). -/
inductive AppRoute where
  | login
  | dashboard
  | client (id : String)
  | order (id : Option String) (clientId : String)
  | products (clientId : String) (fromClientId : Option String)
  | inventory
  | inventory_raw
  | inventory_general
  | inventory_clients
deriving DecidableEq, Repr

/-- What `localStorage` holds under the `"app_route"` key: a serialised
route (for these plain object literals `JSON.parse ∘ JSON.stringify` is the
identity, so the stored route is carried directly), or an unparsable string
(`JSON.parse` throws). -/
inductive StoredRoute where
  | parsable (r : AppRoute)
  | unparsable
deriving DecidableEq, Repr

/-- `loadRoute` from `src/App.tsx`: absent or unparsable storage yields
`{ name: "login" }`; otherwise the stored route is returned. -/
def loadRoute : Option StoredRoute → AppRoute
  | none => AppRoute.login
  | some StoredRoute.unparsable => AppRoute.login
  | some (StoredRoute.parsable r) => r

/-- `saveRoute` from `src/App.tsx`: overwrite the `"app_route"` key with the
serialised route. -/
def saveRoute (r : AppRoute) (_store : Option StoredRoute) : Option StoredRoute :=
  some (StoredRoute.parsable r)

/-- The in-memory App state relevant to route persistence: the `route` state
variable and the `localStorage` slot. -/
structure AppState where
  route : AppRoute
  store : Option StoredRoute
deriving DecidableEq, Repr

/-- A route change in `App`: `setRoute(r)` followed by the
`useEffect(() => { saveRoute(route); }, [route])` persistence effect, which
runs on every route change. -/
def commitRoute (s : AppState) (r : AppRoute) : AppState :=
  { route := r, store := saveRoute r s.store }

/-- The user roles from `src/App.tsx`. -/
inductive UserRole where
  | admin
  | editor
deriving DecidableEq, Repr

/-- `go` from `src/App.tsx` (the route guard): navigating to `products`
requires the admin role and a truthy `clientId`; otherwise the navigation
is redirected to the dashboard. -/
def go (isAdmin : Bool) (next : AppRoute) : AppRoute :=
  match next with
  | AppRoute.products clientId _ =>
    if !isAdmin then AppRoute.dashboard
    else if clientId = "" then AppRoute.dashboard
    else next
  | _ => next

/-- The role-flip bounce effect from `src/App.tsx`: if the current route is
`products` and the user is not an admin, redirect via
`fromClientId ? { name: "client", params: { id: fromClientId } } : { name: "dashboard" }`
— a JS truthiness test, so an absent or empty-string `fromClientId` goes to
the dashboard. -/
def bounce (isAdmin : Bool) (r : AppRoute) : AppRoute :=
  match r with
  | AppRoute.products _ fromClientId =>
    if !isAdmin then
      match fromClientId with
      | some c => if c = "" then AppRoute.dashboard else AppRoute.client c
      | none => AppRoute.dashboard
    else r
  | _ => r

/-- `const isAdmin = userRole === "admin"` from `src/App.tsx`. -/
def UserRole.isAdmin : UserRole → Bool
  | UserRole.admin => true
  | UserRole.editor => false

/-- Role-and-route states of the App. -/
structure NavState where
  role : UserRole
  route : AppRoute
deriving DecidableEq, Repr

/-- The transitions of the navigation system built from `go` and the bounce
effect: a `nav` step routes a requested destination through the `go` guard,
and a `roleChange` step installs a new role and immediately runs the bounce
effect (its dependency list is `[isAdmin, route.name]`). -/
inductive NavStep : NavState → NavState → Prop where
  | nav (s : NavState) (next : AppRoute) :
      NavStep s { role := s.role, route := go s.role.isAdmin next }
  | roleChange (s : NavState) (newRole : UserRole) :
      NavStep s { role := newRole, route := bounce newRole.isAdmin s.route }

/-- States reachable from the initial App state (role defaults to
`"editor"`, route to the dashboard after sign-in) through `go` navigations
and role changes. -/
def NavReachable (s : NavState) : Prop :=
  Relation.ReflTransGen NavStep { role := UserRole.editor, route := AppRoute.dashboard } s

/-! ## Helper lemmas -/

/-- A left fold accumulating `+ f x` from `0` is the sum of the mapped list. -/
theorem foldl_add_eq_sum {α : Type} (f : α → ℚ) (l : List α) :
    l.foldl (fun s x => s + f x) 0 = (l.map f).sum := by
  rw [List.sum_eq_foldl, List.foldl_map]

/-- `List.find?` returns the head of the first matching suffix. -/
theorem find?_first {α : Type} (p : α → Bool) (l1 l2 : List α) (x : α)
    (hx : p x = true) (h1 : ∀ y ∈ l1, p y = false) :
    (l1 ++ x :: l2).find? p = some x := by
  induction l1 with
  | nil => simp [List.find?_cons_of_pos, hx]
  | cons a tl ih =>
    have ha : p a = false := h1 a (by simp)
    rw [List.cons_append, List.find?_cons_of_neg _ (by simp [ha])]
    exact ih (fun y hy => h1 y (by simp [hy]))

/-- Every `movement` string `submit` can emit for a plain submission. -/
theorem toMovementString_cases (k : MovementKind) :
    k.toMovementString = "in" ∨ k.toMovementString = "out" ∨
      k.toMovementString = "transfer" := by
  cases k <;> simp [MovementKind.toMovementString]

/-! ## Claims -/

/-- C8: `num` is total and always returns a finite number — `0` on `null`,
`undefined` and non-finite inputs, the numeric value otherwise — and
`calcOrderTotals` satisfies `wholesale_total = Σ qty*wholesale_price`,
`retail_total = Σ qty*retail_price` (empty sum when `items` is missing),
`order_income = retail_total - shop_fees` and
`client_profit = retail_total - shop_fees - wholesale_total`. -/
theorem num_and_calcOrderTotals_spec :
    (num NumInput.null = 0 ∧ num NumInput.undefined = 0) ∧
    (∀ n : JsNum, n.isFinite = false →
        num (NumInput.jsnum n) = 0 ∧ num (NumInput.str n) = 0) ∧
    (∀ q : ℚ, num (NumInput.jsnum (JsNum.fin q)) = q ∧
        num (NumInput.str (JsNum.fin q)) = q) ∧
    (∀ o : TotalsOrder,
      (calcOrderTotals o).wholesale_total =
        ((o.items.getD []).map (fun it => num it.qty * num it.wholesale_price)).sum ∧
      (calcOrderTotals o).retail_total =
        ((o.items.getD []).map (fun it => num it.qty * num it.retail_price)).sum ∧
      (calcOrderTotals o).order_income =
        (calcOrderTotals o).retail_total - num o.shop_fees ∧
      (calcOrderTotals o).client_profit =
        (calcOrderTotals o).retail_total - num o.shop_fees -
          (calcOrderTotals o).wholesale_total) := by
  refine ⟨⟨rfl, rfl⟩, ?_, ?_, ?_⟩
  · intro n h
    cases n <;> simp_all [num, JsNum.isFinite]
  · intro q
    exact ⟨rfl, rfl⟩
  · intro o
    refine ⟨?_, ?_, rfl, ?_⟩
    · simp [calcOrderTotals, foldl_add_eq_sum]
    · simp [calcOrderTotals, foldl_add_eq_sum]
    · simp [calcOrderTotals]

/-- Witness for C8 at a concrete non-finite input. -/
theorem num_and_calcOrderTotals_spec_witness :
    num (NumInput.jsnum JsNum.nan) = 0 ∧ num (NumInput.str JsNum.nan) = 0 :=
  num_and_calcOrderTotals_spec.2.1 JsNum.nan rfl

/-- C4: route state is mirrored to local storage: a route change commits the
new route and persists it, `loadRoute` after `saveRoute r` returns `r`, and
`loadRoute` falls back to `{ name: "login" }` when the stored value is absent
or unparsable. -/
theorem route_persistence_roundtrip :
    (∀ (s : AppState) (r : AppRoute),
        (commitRoute s r).route = r ∧
        (commitRoute s r).store = saveRoute r s.store ∧
        loadRoute (commitRoute s r).store = r) ∧
    loadRoute none = AppRoute.login ∧
    loadRoute (some StoredRoute.unparsable) = AppRoute.login :=
  ⟨fun _ _ => ⟨rfl, rfl, rfl⟩, rfl, rfl⟩

/-- C6: `canDeleteOrders` is exactly the disjunction of the truthiness of
the `is_admin` and `is_editor` RPC results. -/
theorem canDeleteOrders_is_disjunction (admData edtData : RpcData) :
    canDeleteOrders admData edtData = true ↔
      (rpcTruthy admData = true ∨ rpcTruthy edtData = true) := by
  simp [canDeleteOrders]

/-- C5: client deletion is delegated to the backend through the
`admin_delete_client` RPC: a non-admin gets an alert and no backend call, a
confirmed admin request calls the RPC (never a direct table delete — in no
case is one issued), and error messages containing `not_admin` / `not_found`
map to their alerts with no reload of the client list. -/
theorem del_requires_admin_and_rpc :
    (∀ (confirmed : Bool) (rpcError : Option String),
        del false confirmed rpcError =
          { rpcCalled := false, tableDeleteCalled := false,
            alert := some "Only admins can delete clients.", reloaded := false }) ∧
    (∀ (isAdmin confirmed : Bool) (rpcError : Option String),
        (del isAdmin confirmed rpcError).tableDeleteCalled = false) ∧
    (∀ rpcError : Option String, (del true true rpcError).rpcCalled = true) ∧
    (∀ m : String, strIncludes m "not_admin" = true →
        (del true true (some m)).alert = some "You are not an admin." ∧
        (del true true (some m)).reloaded = false) ∧
    (∀ m : String, strIncludes m "not_admin" = false →
        strIncludes m "not_found" = true →
        (del true true (some m)).alert = some "Client not found." ∧
        (del true true (some m)).reloaded = false) := by
  refine ⟨fun confirmed rpcError => rfl, ?_, ?_, ?_, ?_⟩
  · intro isAdmin confirmed rpcError
    cases isAdmin <;> cases confirmed <;> cases rpcError <;> simp [del]
  · intro rpcError
    cases rpcError <;> simp [del]
  · intro m h
    simp [del, h]
  · intro m h1 h2
    simp [del, h1, h2]

/-- Witness for C5 at a concrete `not_admin` error message. -/
theorem del_requires_admin_and_rpc_witness :
    (del true true (some "x not_admin")).alert = some "You are not an admin." ∧
    (del true true (some "x not_admin")).reloaded = false :=
  del_requires_admin_and_rpc.2.2.2.1 "x not_admin" (by decide)

/-- C3 counterexample: in the order editor an editor's failed
`client_catalog_for_editor` RPC is NOT surfaced as an alert; an alternative
recovery call (`client_catalog_for_admin`) is issued in its place and the
operation continues with the fallback's rows — refuting the claim that every
backend failure is alerted with no recovery call anywhere in the program. -/
theorem editor_catalog_failure_recovered_not_alerted :
    (loadCatalog false (CallResult.ok ([] : List CatRow))
        (CallResult.err "permission denied")).calls =
      ["client_catalog_for_editor", "client_catalog_for_admin"] ∧
    (loadCatalog false (CallResult.ok ([] : List CatRow))
        (CallResult.err "permission denied")).alert = none :=
  ⟨rfl, rfl⟩

/-- C3 (amended): failures are surfaced as blocking alerts with no retry,
except two recovery fallbacks in the order editor: a non-admin's failed
`client_catalog_for_editor` RPC falls back to the `client_catalog_for_admin`
RPC, and a failed `order_items_for_editor` RPC falls back to a direct
`order_items` select; in each fallback the first failure is silent and an
alert is raised only if the fallback also fails. -/
theorem fallback_recovery_spec :
    (∀ adminRes editorRes : CallResult CatRow,
        (loadCatalog true adminRes editorRes).calls = ["client_catalog_for_admin"] ∧
        ((loadCatalog true adminRes editorRes).alert = none ↔
          ∃ rows, adminRes = CallResult.ok rows)) ∧
    (∀ (rows : List CatRow) (adminRes : CallResult CatRow),
        loadCatalog false adminRes (CallResult.ok rows) =
          { calls := ["client_catalog_for_editor"], alert := none, catRows := rows }) ∧
    (∀ (m : String) (rows : List CatRow),
        loadCatalog false (CallResult.ok rows) (CallResult.err m) =
          { calls := ["client_catalog_for_editor", "client_catalog_for_admin"],
            alert := none, catRows := rows }) ∧
    (∀ m m2 : String,
        loadCatalog false (CallResult.err m2) (CallResult.err m) =
          { calls := ["client_catalog_for_editor", "client_catalog_for_admin"],
            alert := some m2, catRows := [] }) ∧
    (∀ (rows : List ItemRow) (selectRes : CallResult ItemRow),
        loadOrderItems false selectRes (CallResult.ok rows) =
          { calls := ["order_items_for_editor"], alert := none, rows := rows }) ∧
    (∀ (m : String) (rows : List ItemRow),
        loadOrderItems false (CallResult.ok rows) (CallResult.err m) =
          { calls := ["order_items_for_editor", "select order_items"],
            alert := none, rows := rows }) ∧
    (∀ m m2 : String,
        loadOrderItems false (CallResult.err m2) (CallResult.err m) =
          { calls := ["order_items_for_editor", "select order_items"],
            alert := some m2, rows := [] }) := by
  refine ⟨?_, fun rows adminRes => rfl, fun m rows => rfl, fun m m2 => rfl,
    fun rows selectRes => rfl, fun m rows => rfl, fun m m2 => rfl⟩
  intro adminRes editorRes
  cases adminRes <;> simp [loadCatalog]

/-- C2: reconciliation assigns `product_id` exactly when some catalog
product's name equals the item's `product_name` (taking the first such
product), assigns `variant_id` exactly when that matched product has a
variant whose name equals the item's `variation`, leaves both identifiers
undefined when no match exists, and carries the stored fields through
unchanged. -/
theorem reconcileItem_matches_by_name (ps : List Product) (vs : List ProductVariant)
    (it : SavedItem) :
    ((reconcileItem ps vs it).product_name = it.product_name ∧
     (reconcileItem ps vs it).variation = it.variation ∧
     (reconcileItem ps vs it).qty = it.qty ∧
     (reconcileItem ps vs it).wholesale_price = it.wholesale_price ∧
     (reconcileItem ps vs it).retail_price = it.retail_price) ∧
    ((reconcileItem ps vs it).product_id.isSome ↔
      ∃ p ∈ ps, p.name = it.product_name) ∧
    (∀ (l1 : List Product) (p : Product) (l2 : List Product),
      ps = l1 ++ p :: l2 → p.name = it.product_name →
      (∀ p2 ∈ l1, p2.name ≠ it.product_name) →
      (reconcileItem ps vs it).product_id = some p.id ∧
      ((reconcileItem ps vs it).variant_id.isSome ↔
        ∃ v ∈ vs, v.product_id = p.id ∧ v.name = it.variation)) ∧
    ((reconcileItem ps vs it).product_id = none →
      (reconcileItem ps vs it).variant_id = none) := by
  refine ⟨⟨rfl, rfl, rfl, rfl, rfl⟩, ?_, ?_, ?_⟩
  · simp [reconcileItem, List.find?_isSome]
  · intro l1 p l2 hps hp hl1
    have hfind : ps.find? (fun pp => pp.name == it.product_name) = some p := by
      rw [hps]
      exact find?_first _ l1 l2 p (by simp [hp])
        (fun y hy => by simpa using hl1 y hy)
    constructor
    · simp [reconcileItem, hfind]
    · simp only [reconcileItem, hfind]
      simp [List.find?_isSome, List.mem_filter, and_assoc]
  · intro h
    have hfind : ps.find? (fun pp => pp.name == it.product_name) = none := by
      by_contra hne
      rcases Option.ne_none_iff_exists'.mp hne with ⟨p, hp⟩
      simp [reconcileItem, hp] at h
    simp [reconcileItem, hfind]

/-- Witness for C2: a one-product, one-variant catalog where both the product
and the variant match by name. -/
theorem reconcileItem_matches_by_name_witness :
    (reconcileItem [Product.mk "p1" "Soap"] [ProductVariant.mk "v1" "p1" "Small"]
        (SavedItem.mk "Soap" "Small" 1 2 3)).product_id = some "p1" ∧
    ((reconcileItem [Product.mk "p1" "Soap"] [ProductVariant.mk "v1" "p1" "Small"]
        (SavedItem.mk "Soap" "Small" 1 2 3)).variant_id.isSome ↔
      ∃ v ∈ [ProductVariant.mk "v1" "p1" "Small"],
        v.product_id = "p1" ∧ v.name = "Small") :=
  (reconcileItem_matches_by_name [Product.mk "p1" "Soap"]
      [ProductVariant.mk "v1" "p1" "Small"]
      (SavedItem.mk "Soap" "Small" 1 2 3)).2.2.1
    [] (Product.mk "p1" "Soap") [] rfl rfl (by simp)

/-- C7: every record the movement submission flow inserts into
`inventory_movements` — plain IN/OUT, plain transfer, the conversion pair,
and the compensating rollback insert — has its `movement` field equal to
`"in"`, `"out"` or `"transfer"`. -/
theorem movement_strings_wellformed (err : ℕ → Option String) (kind : MovementKind)
    (item : ItemRef) (qty : JsNum) (prodQty : Option JsNum) (note : String)
    (toItem : Option ItemRef) :
    ∀ r ∈ (submit err kind item qty prodQty note toItem).inserts,
      r.movement = "in" ∨ r.movement = "out" ∨ r.movement = "transfer" := by
  intro r hr
  unfold submit at hr
  repeat' split at hr
  all_goals simp_all
  all_goals try exact toMovementString_cases _
  all_goals (repeat' split at hr)
  all_goals simp_all
  all_goals (rcases hr with rfl | rfl | rfl <;> simp)

/-- Witness for C7 at a concrete IN submission. -/
theorem movement_strings_wellformed_witness :
    (MovementInsert.mk "i1" "in" (JsNum.fin 1) "" none).movement = "in" ∨
    (MovementInsert.mk "i1" "in" (JsNum.fin 1) "" none).movement = "out" ∨
    (MovementInsert.mk "i1" "in" (JsNum.fin 1) "" none).movement = "transfer" :=
  movement_strings_wellformed (fun _ => none) MovementKind.inK
    (ItemRef.mk "i1" "Item" (JsNum.fin 5)) (JsNum.fin 1) none "" none
    (MovementInsert.mk "i1" "in" (JsNum.fin 1) "" none) (by decide)

/-- C10: the movement submission function issues no `inventory_movements`
insert at all when the entered quantity is not positive, when a transfer has
no destination item, when the transfer quantity exceeds the source item's
`qty_on_hand`, or when the produced quantity is negative or not a finite
number. -/
theorem submit_no_insert_on_invalid (err : ℕ → Option String) (kind : MovementKind)
    (item : ItemRef) (qty : JsNum) (prodQty : Option JsNum) (note : String)
    (toItem : Option ItemRef) :
    ((∃ q : ℚ, qty = JsNum.fin q ∧ ¬ 0 < q) ∨
     (kind = MovementKind.transferK ∧ toItem = none) ∨
     (kind = MovementKind.transferK ∧ item.qty_on_hand.jsLt qty = true) ∨
     (kind = MovementKind.transferK ∧ ∃ p, prodQty = some p ∧
        (p.isFinite = false ∨ p.jsLt (JsNum.fin 0) = true))) →
    (submit err kind item qty prodQty note toItem).inserts = [] := by
  intro h
  rcases h with ⟨q, rfl, hq⟩ | ⟨rfl, rfl⟩ | ⟨rfl, hlt⟩ | ⟨rfl, p, rfl, hbad⟩
  · have hle : JsNum.jsLe (JsNum.fin q) (JsNum.fin 0) = true := by
      simp [JsNum.jsLe]
      exact le_of_not_lt hq
    simp [submit, hle]
  · by_cases h0 : qty.jsLe (JsNum.fin 0) <;> simp [submit, h0]
  · by_cases h0 : qty.jsLe (JsNum.fin 0)
    · simp [submit, h0]
    · cases toItem with
      | none => simp [submit, h0]
      | some t => simp [submit, h0, hlt]
  · cases toItem with
    | none => by_cases h0 : qty.jsLe (JsNum.fin 0) <;> simp [submit, h0]
    | some t =>
      by_cases h0 : qty.jsLe (JsNum.fin 0)
      · simp [submit, h0]
      · by_cases hlt : item.qty_on_hand.jsLt qty
        · simp [submit, h0, hlt]
        · rcases hbad with hb | hb <;> simp [submit, h0, hlt, hb]

/-- Witness for C10 at a zero entered quantity. -/
theorem submit_no_insert_on_invalid_witness :
    (submit (fun _ => none) MovementKind.inK (ItemRef.mk "i1" "Item" (JsNum.fin 5))
        (JsNum.fin 0) none "" none).inserts = [] :=
  submit_no_insert_on_invalid (fun _ => none) MovementKind.inK
    (ItemRef.mk "i1" "Item" (JsNum.fin 5)) (JsNum.fin 0) none "" none
    (Or.inl ⟨0, rfl, by norm_num⟩)

/-- C1: a validated transfer submission taking the conversion path
(produced quantity different from consumed quantity) issues two dependent
inserts — first an `"out"` movement on the source item for the consumed
quantity, then an `"in"` movement on the destination item for the produced
quantity (the second only if the first succeeded) — and when the second
insert fails it issues a compensating `"in"` insert of the consumed quantity
back onto the source item before surfacing the error as an alert. -/
theorem transfer_conversion_compensating_insert (err : ℕ → Option String)
    (item t : ItemRef) (qty : JsNum) (prodQty : Option JsNum) (note : String)
    (hq : qty.jsLe (JsNum.fin 0) = false)
    (hav : item.qty_on_hand.jsLt qty = false)
    (hfin : (prodQty.getD qty).isFinite = true)
    (hneg : (prodQty.getD qty).jsLt (JsNum.fin 0) = false)
    (hne : (prodQty.getD qty).jsEq qty = false) :
    (err 0 = none → err 1 = none →
      (submit err MovementKind.transferK item qty prodQty note (some t)).inserts.map
          (fun r => (r.item_id, r.movement, r.qty)) =
        [(item.id, "out", qty), (t.id, "in", prodQty.getD qty)] ∧
      (submit err MovementKind.transferK item qty prodQty note (some t)).alert = none ∧
      (submit err MovementKind.transferK item qty prodQty note (some t)).succeeded = true) ∧
    (∀ e, err 0 = none → err 1 = some e →
      (submit err MovementKind.transferK item qty prodQty note (some t)).inserts.map
          (fun r => (r.item_id, r.movement, r.qty)) =
        [(item.id, "out", qty), (t.id, "in", prodQty.getD qty), (item.id, "in", qty)] ∧
      (submit err MovementKind.transferK item qty prodQty note (some t)).alert = some e ∧
      (submit err MovementKind.transferK item qty prodQty note (some t)).succeeded = false) ∧
    (∀ e, err 0 = some e →
      (submit err MovementKind.transferK item qty prodQty note (some t)).inserts.map
          (fun r => (r.item_id, r.movement, r.qty)) = [(item.id, "out", qty)] ∧
      (submit err MovementKind.transferK item qty prodQty note (some t)).alert = some e ∧
      (submit err MovementKind.transferK item qty prodQty note (some t)).succeeded = false) := by
  refine ⟨?_, ?_, ?_⟩
  · intro h0 h1
    simp [submit, hq, hav, hfin, hneg, hne, h0, h1]
  · intro e h0 h1
    simp [submit, hq, hav, hfin, hneg, hne, h0, h1]
  · intro e h0
    simp [submit, hq, hav, hfin, hneg, hne, h0]

/-- Witness for C1: converting 2 units of a raw item into 6 units of a
destination item, with the destination insert failing. -/
theorem transfer_conversion_compensating_insert_witness :
    (submit (fun n => if n = 1 then some "duplicate key" else none)
        MovementKind.transferK (ItemRef.mk "src" "Raw" (JsNum.fin 10)) (JsNum.fin 2)
        (some (JsNum.fin 6)) "" (some (ItemRef.mk "dst" "Finished" (JsNum.fin 0)))).inserts.map
        (fun r => (r.item_id, r.movement, r.qty)) =
      [("src", "out", JsNum.fin 2), ("dst", "in", JsNum.fin 6), ("src", "in", JsNum.fin 2)] ∧
    (submit (fun n => if n = 1 then some "duplicate key" else none)
        MovementKind.transferK (ItemRef.mk "src" "Raw" (JsNum.fin 10)) (JsNum.fin 2)
        (some (JsNum.fin 6)) "" (some (ItemRef.mk "dst" "Finished" (JsNum.fin 0)))).alert =
      some "duplicate key" ∧
    (submit (fun n => if n = 1 then some "duplicate key" else none)
        MovementKind.transferK (ItemRef.mk "src" "Raw" (JsNum.fin 10)) (JsNum.fin 2)
        (some (JsNum.fin 6)) "" (some (ItemRef.mk "dst" "Finished" (JsNum.fin 0)))).succeeded =
      false :=
  (transfer_conversion_compensating_insert
      (fun n => if n = 1 then some "duplicate key" else none)
      (ItemRef.mk "src" "Raw" (JsNum.fin 10)) (ItemRef.mk "dst" "Finished" (JsNum.fin 0))
      (JsNum.fin 2) (some (JsNum.fin 6)) ""
      (by decide) (by decide) rfl (by decide) (by decide)).2.1
    "duplicate key" rfl rfl

/-- C9: in every route state reachable through the `go` navigation function
and the role-change bounce effect, the route is `products` only when the
role is admin and the `clientId` parameter is truthy; a navigation to
`products` without these is redirected to the dashboard, and a role flip to
non-admin while on `products` redirects to the originating client page when
`fromClientId` is truthy, else to the dashboard. -/
theorem products_route_invariant :
    (∀ s : NavState, NavReachable s →
        ∀ cid fcid, s.route = AppRoute.products cid fcid →
          s.role = UserRole.admin ∧ cid ≠ "") ∧
    (∀ (isAdmin : Bool) (cid : String) (fcid : Option String),
        (isAdmin = false ∨ cid = "") →
        go isAdmin (AppRoute.products cid fcid) = AppRoute.dashboard) ∧
    (∀ (cid c : String), c ≠ "" →
        bounce false (AppRoute.products cid (some c)) = AppRoute.client c) ∧
    (∀ cid : String,
        bounce false (AppRoute.products cid (some "")) = AppRoute.dashboard ∧
        bounce false (AppRoute.products cid none) = AppRoute.dashboard) := by
  refine ⟨?_, ?_, fun cid c hc => by simp [bounce, hc], fun cid => ⟨rfl, rfl⟩⟩
  · intro s hs
    induction hs with
    | refl => intro cid fcid h; exact absurd h (by simp)
    | tail hab hbc ih =>
      rename_i b c
      intro cid fcid h
      cases hbc with
      | nav next =>
        simp only at h
        cases next with
        | products cid2 fcid2 =>
          unfold go at h
          by_cases hadm : b.role.isAdmin = true
          · rw [hadm] at h
            simp only [Bool.not_true, Bool.false_eq_true, if_false] at h
            by_cases hcid : cid2 = ""
            · simp [hcid] at h
            · simp only [hcid, if_false] at h
              cases h
              constructor
              · cases hr : b.role
                · rfl
                · rw [hr] at hadm
                  simp [UserRole.isAdmin] at hadm
              · exact hcid
          · simp only [Bool.not_eq_true] at hadm
            rw [hadm] at h
            simp at h
        | login => simp [go] at h
        | dashboard => simp [go] at h
        | client i => simp [go] at h
        | order i cl => simp [go] at h
        | inventory => simp [go] at h
        | inventory_raw => simp [go] at h
        | inventory_general => simp [go] at h
        | inventory_clients => simp [go] at h
      | roleChange newRole =>
        obtain ⟨brole, broute⟩ := b
        simp only at h ih
        cases broute with
        | products cid2 fcid2 =>
          unfold bounce at h
          by_cases hadm : newRole.isAdmin = true
          · rw [hadm] at h
            simp only [Bool.not_true, Bool.false_eq_true, if_false] at h
            cases h
            have hb := ih cid fcid rfl
            refine ⟨?_, hb.2⟩
            cases newRole
            · rfl
            · simp [UserRole.isAdmin] at hadm
          · simp only [Bool.not_eq_true] at hadm
            rw [hadm] at h
            rcases fcid2 with _ | fc
            · simp at h
            · by_cases hfc : fc = "" <;> simp [hfc] at h
        | login => simp [bounce] at h
        | dashboard => simp [bounce] at h
        | client i => simp [bounce] at h
        | order i cl => simp [bounce] at h
        | inventory => simp [bounce] at h
        | inventory_raw => simp [bounce] at h
        | inventory_general => simp [bounce] at h
        | inventory_clients => simp [bounce] at h
  · intro isAdmin cid fcid h
    rcases h with rfl | rfl
    · simp [go]
    · cases isAdmin <;> simp [go]

/-- Witness for C9: an admin navigating to a client-scoped products page. -/
theorem products_route_invariant_witness :
    (NavState.mk UserRole.admin (AppRoute.products "c1" none)).role = UserRole.admin ∧
    "c1" ≠ "" :=
  products_route_invariant.1 (NavState.mk UserRole.admin (AppRoute.products "c1" none))
    (Relation.ReflTransGen.tail
      (Relation.ReflTransGen.tail Relation.ReflTransGen.refl
        (NavStep.roleChange (NavState.mk UserRole.editor AppRoute.dashboard) UserRole.admin))
      (NavStep.nav (NavState.mk UserRole.admin AppRoute.dashboard)
        (AppRoute.products "c1" none)))
    "c1" none rfl
